import Mathlib

/-!
Verification of the grid-docking layout engine of spooky-console
(`src/spookyconsole/gui/core.py`).

The Python classes `GridState`, `Grid` and `DockableMixin` are shallowly
embedded below.  A `GridState` is a `height × width` boolean numpy array;
we model it as a pair of dimensions plus an occupancy function, and model
numpy basic slicing (`self[row:row+row_span, col:col+col_span]`) exactly,
including clamping and negative-index wrap-around, via `sliceNorm`.
`Grid` carries the grid state, the registry of dockables (a dict from
dockable to `DockableEntry`), the geometry, and the window-resize
machinery; tkinter canvas items are represented by the pixel bounding box
the code computes for them, and the external inputs the code reads from
tkinter (viewport size, scrollbar saturation, pointer position) become
explicit arguments of the corresponding operations.
-/

namespace SpookyConsole

/-- Python slice-endpoint normalization for a positive-step slice over an
axis of length `n`: a negative index counts from the end (then clamps to
0), a nonnegative index clamps to `n`. -/
def sliceNorm (n : Nat) (i : Int) : Nat :=
  if i < 0 then ((n : Int) + i).toNat else min i.toNat n

/-- List of naturals from `a` (inclusive) to `b` (exclusive). -/
def natRange (a b : Nat) : List Nat := (List.range (b - a)).map (fun i => a + i)

/-- List of integers from `a` (inclusive) to `b` (exclusive), mirroring
Python's `range(a, b)`. -/
def intRange (a b : Int) : List Int := (List.range (b - a).toNat).map (fun i => a + (i : Int))

/-- Stable insertion into a list sorted by the key `k` (the inserted
element goes before every element of equal key). -/
def insertSortedBy (k : α → Nat) (a : α) : List α → List α
  | [] => [a]
  | b :: bs => if k b < k a then b :: insertSortedBy k a bs else a :: b :: bs

/-- Stable sort by the key `k`; this is the behaviour of Python's
`sorted(..., key=k)`. -/
def sortedByKey (k : α → Nat) : List α → List α
  | [] => []
  | a :: as_ => insertSortedBy k a (sortedByKey k as_)

/-- The namedtuple `Cell(column, row)`. -/
structure Cell where
  column : Int
  row : Int
deriving DecidableEq

/-- The namedtuple `GridGeometry`.  `width`/`height` are grid dimensions in
cells, `cell_width`/`cell_height` are pixel sizes, the paddings are pixel
gaps (kept as integers because the resize protocol computes them by a
floor division that can in principle go negative). -/
structure GridGeometry where
  width : Nat
  height : Nat
  cell_width : Nat
  cell_height : Nat
  column_padding : Int
  row_padding : Int
deriving DecidableEq

/-- The namedtuple `Size(width, height)` caching a window size. -/
structure Size where
  width : Nat
  height : Nat
deriving DecidableEq

/-- The namedtuple `BBox(x, y, w, h)` of canvas pixel coordinates. -/
structure BBox where
  x : Int
  y : Int
  w : Int
  h : Int
deriving DecidableEq

/-- The grid-relevant data of a `DockableMixin` widget: an identity (the
Python object identity, used as the `Grid._dockables` dict key) and the
column/row spans. -/
structure DockableMixin where
  id : Nat
  col_span : Nat
  row_span : Nat
deriving DecidableEq

/-- The namedtuple `DockableEntry(id, cell)`: the canvas window item (here
represented by the bbox the code created it with) and the top-left cell. -/
structure DockableEntry where
  cell : Cell
  bbox : BBox
deriving DecidableEq

/-- The class `GridState`: a `height × width` boolean array; `occ r c`
says whether the cell in row `r`, column `c` is populated. -/
structure GridState where
  width : Nat
  height : Nat
  occ : Nat → Nat → Bool

namespace GridState

/-- `GridState.__new__`: an all-empty state. -/
def empty (width height : Nat) : GridState := ⟨width, height, fun _ _ => false⟩

/-- `GridState.min_width`: one past the last column containing a populated
cell, `0` for an all-empty grid. -/
def min_width (s : GridState) : Nat :=
  (List.range s.width).foldl
    (fun acc c => if (List.range s.height).any (fun r => s.occ r c) then c + 1 else acc) 0

/-- `GridState.min_height`: one past the last row containing a populated
cell, `0` for an all-empty grid. -/
def min_height (s : GridState) : Nat :=
  (List.range s.height).foldl
    (fun acc r => if (List.range s.width).any (fun c => s.occ r c) then r + 1 else acc) 0

/-- Whether `(r, c)` lies in the numpy slice
`[cell.row : cell.row+row_span, cell.column : cell.column+col_span]` of a
`height × width` array, after Python slice normalization. -/
def inSlice (width height : Nat) (cell : Cell) (col_span row_span : Nat) (r c : Nat) : Bool :=
  decide (sliceNorm height cell.row ≤ r) && decide (r < sliceNorm height (cell.row + row_span)) &&
  decide (sliceNorm width cell.column ≤ c) && decide (c < sliceNorm width (cell.column + col_span))

/-- `GridState.conflicts`:
`self[row:row+row_span, col:col+col_span].any()`. -/
def conflicts (s : GridState) (cell : Cell) (col_span row_span : Nat) : Bool :=
  (natRange (sliceNorm s.height cell.row) (sliceNorm s.height (cell.row + row_span))).any fun r =>
    (natRange (sliceNorm s.width cell.column) (sliceNorm s.width (cell.column + col_span))).any fun c =>
      s.occ r c

/-- `GridState._set`: `self[row:row+row_span, col:col+col_span] = val`
(no bounds checking; numpy silently clamps/wraps the slice). -/
def setCells (s : GridState) (cell : Cell) (col_span row_span : Nat) (val : Bool) : GridState :=
  { s with occ := fun r c =>
      if inSlice s.width s.height cell col_span row_span r c then val else s.occ r c }

/-- `GridState.populate`. -/
def populate (s : GridState) (cell : Cell) (col_span row_span : Nat) : GridState :=
  s.setCells cell col_span row_span true

/-- `GridState.unpopulate`. -/
def unpopulate (s : GridState) (cell : Cell) (col_span row_span : Nat) : GridState :=
  s.setCells cell col_span row_span false

/-- `GridState.empty_copy`: `GridState(*self.shape)`.  `shape` is
`(height, width)` while the constructor takes `(width, height)`, so the
scratch copy is dimension-transposed for non-square grids. -/
def empty_copy (s : GridState) : GridState := empty s.height s.width

/-- `GridState.conflicts_where`: the source returns
`self.empty_copy().populate(cell, col_span, row_span) & self`.  Because
`populate` ends with the `_set` statement and no `return`, the left
operand of `&` is the Python value `None`, and `None & <bool array>`
raises `TypeError` — on every call, whatever the arguments.  The method
therefore never produces a mask; it is modelled as the raised error,
`none`. -/
def conflicts_where (s : GridState) (cell : Cell) (col_span row_span : Nat) :
    Option GridState :=
  none

/-- Row-major list of the `(row, column)` indices of populated cells,
as produced by `np.vstack(np.where(...))` read off in columns. -/
def trueIndices (s : GridState) : List (Nat × Nat) :=
  (List.range s.height).flatMap fun r =>
    (List.range s.width).filterMap fun c => if s.occ r c then some (r, c) else none

end GridState

/-- The class `Grid` (a scrollable canvas with the docking mechanism).
Tkinter state appears as follows: each registered dockable's canvas
window item is represented by its `DockableEntry` bbox; the canvas
scroll region is the `scroll_region` pixel pair; the `<Configure>`
binding, the pending `after` callback id and the cached resize size are
the `resize_data` / `resize_after_id` fields.  `resize_protocol` is
`none` while the constructor has not yet called `set_resize_protocol`. -/
structure Grid where
  state : GridState
  dockables : List (DockableMixin × DockableEntry)
  geometry : GridGeometry
  orig_geometry : GridGeometry
  resize_protocol : Option Nat
  resize_data : Option Size
  resize_after_id : Bool
  scroll_region : Int × Int

namespace Grid

/-- `Grid.MIN_CELL_WIDTH`. -/
def MIN_CELL_WIDTH : Nat := 25

/-- `Grid.MIN_CELL_HEIGHT`. -/
def MIN_CELL_HEIGHT : Nat := 25

/-- `Grid.RESIZE_PROTO_NONE`. -/
def RESIZE_PROTO_NONE : Nat := 0

/-- `Grid.RESIZE_PROTO_EXPAND_CELLS`. -/
def RESIZE_PROTO_EXPAND_CELLS : Nat := 1

/-- `Grid.RESIZE_PROTO_ADD_PADDING`. -/
def RESIZE_PROTO_ADD_PADDING : Nat := 2

/-- `Grid._clamp`: clamp `n` up to `min_`. -/
def clamp (n min_ : Nat) : Nat := if n ≥ min_ then n else min_

/-- `Grid._contained_in`: whether `query_cell` lies in the rectangle with
top-left `containing_cell` and the given spans. -/
def contained_in (query_cell containing_cell : Cell) (col_span row_span : Nat) : Bool :=
  decide (containing_cell.column ≤ query_cell.column) &&
  decide (query_cell.column < containing_cell.column + col_span) &&
  decide (containing_cell.row ≤ query_cell.row) &&
  decide (query_cell.row < containing_cell.row + row_span)

/-- `Grid._calc_bbox`: pixel bounding box of a cell group. -/
def calc_bbox (geom : GridGeometry) (cell : Cell) (col_span row_span : Nat) : BBox :=
  { x := cell.column * ((geom.cell_width : Int) + geom.column_padding)
    y := cell.row * ((geom.cell_height : Int) + geom.row_padding)
    w := (col_span : Int) * geom.cell_width + ((col_span : Int) - 1) * geom.column_padding
    h := (row_span : Int) * geom.cell_height + ((row_span : Int) - 1) * geom.row_padding }

/-- Dict assignment `self._dockables[dockable] = entry`: replace the
binding of a present key in place, otherwise append. -/
def insertEntry : List (DockableMixin × DockableEntry) → DockableMixin → DockableEntry →
    List (DockableMixin × DockableEntry)
  | [], d, e => [(d, e)]
  | p :: ps, d, e => if p.1.id = d.id then (d, e) :: ps else p :: insertEntry ps d e

/-- Dict `self._dockables.pop(dockable)`: remove the binding of a key and
return its entry, or `none` (a Python `KeyError`) when absent. -/
def popEntry : List (DockableMixin × DockableEntry) → Nat →
    Option (DockableEntry × List (DockableMixin × DockableEntry))
  | [], _ => none
  | p :: ps, i =>
    if p.1.id = i then some (p.2, ps)
    else (popEntry ps i).map fun q => (q.1, p :: q.2)

/-- Registry lookup `self._dockables[dockable].cell` as an `Option`. -/
def entryCell (g : Grid) (id_ : Nat) : Option Cell :=
  (g.dockables.find? fun p => p.1.id == id_).map fun p => p.2.cell

/-- `Grid._naive_search` on explicit data: ring search around
`origin_cell` for a non-conflicting `col_span × row_span` cell group. -/
def naiveSearchState (s : GridState) (gw gh : Nat) (origin_cell : Cell)
    (col_span row_span : Nat) : Option Cell :=
  let col := origin_cell.column
  let row := origin_cell.row
  let lco := -col
  let uco := (gw : Int) - col - col_span
  let lro := -row
  let uro := (gh : Int) - row - row_span
  let magBound := (max (max ((gw : Int) - col) ((gh : Int) - row)) (max (col + 1) (row + 1))).toNat
  (List.range magBound).findSome? fun mag =>
    let m : Int := (mag : Int)
    let offsets := ((intRange (-m) (m + 1)).flatMap fun c =>
        (intRange (-m) (m + 1)).map fun r => (c, r)).filter fun o =>
      decide (mag ≤ o.1.natAbs + o.2.natAbs) &&
      decide (lco ≤ o.1) && decide (o.1 ≤ uco) && decide (lro ≤ o.2) && decide (o.2 ≤ uro)
    (sortedByKey (fun o => o.1.natAbs + o.2.natAbs) offsets).findSome? fun o =>
      let candidate : Cell := ⟨col + o.1, row + o.2⟩
      if s.conflicts candidate col_span row_span then none else some candidate

/-- `Grid._naive_search`, reading the grid state and geometry from the
grid as the method does. -/
def naive_search (g : Grid) (origin_cell : Cell) (col_span row_span : Nat) : Option Cell :=
  naiveSearchState g.state g.geometry.width g.geometry.height origin_cell col_span row_span

/-- Whether the reversed column `j` (i.e. original column `width - 1 - j`)
of `self._grid_state[:row_span, ::-1]` sums to zero, as used in
`Grid._find_next_empty_cell_group`. -/
def revColEmpty (s : GridState) (row_span j : Nat) : Bool :=
  (List.range (min row_span s.height)).all fun r => !(s.occ r (s.width - 1 - j))

/-- `Grid._update_state_size`: rebuild the grid state at the new size and
repopulate it from the registry. -/
def update_state_size (g : Grid) (width height : Nat) : Grid :=
  let st := g.dockables.foldl (fun s p => s.populate p.2.cell p.1.col_span p.1.row_span)
    (GridState.empty width height)
  { g with state := st }

/-- `Grid._update_dockable_geometry`: recompute each registered
dockable's bbox from the current geometry and reposition its canvas
item. -/
def update_dockable_geometry (g : Grid) : Grid :=
  { g with dockables := g.dockables.map fun p =>
      (p.1, { cell := p.2.cell, bbox := calc_bbox g.geometry p.2.cell p.1.col_span p.1.row_span }) }

/-- Python truthiness of an optional natural (`None` and `0` are falsy). -/
def truthyN : Option Nat → Bool
  | some n => n != 0
  | none => false

/-- Python truthiness of an optional integer (`None` and `0` are falsy). -/
def truthyI : Option Int → Bool
  | some v => v != 0
  | none => false

/-- Python `x or default` for an optional natural. -/
def orTruthy (o : Option Nat) (dflt : Nat) : Nat :=
  match o with
  | some n => if n = 0 then dflt else n
  | none => dflt

/-- `Grid.set_geometry`: apply a partial geometry request (Python
truthiness determines "no change" for width/height/cell sizes; the
paddings use an explicit `None` check), clamping width/height up to the
grid state's minima and the cell sizes up to the fixed minima, then
refresh the scroll region, the grid state size and the dockable
bboxes as required.  Returns the updated grid and the new geometry
(the method's return value). -/
def set_geometry (g : Grid) (width height cell_width cell_height : Option Nat)
    (column_padding row_padding : Option Int) : Grid × GridGeometry :=
  let invalid_dockable_geom :=
    truthyN cell_width || truthyN cell_height || truthyI column_padding || truthyI row_padding
  let invalid_state_size := truthyN width || truthyN height
  let widthV : Nat := match width with
    | some n => if n ≠ 0 ∧ n < g.state.min_width then g.state.min_width else n
    | none => 0
  let heightV : Nat := match height with
    | some n => if n ≠ 0 ∧ n < g.state.min_height then g.state.min_height else n
    | none => 0
  let width2 := if widthV = 0 then g.geometry.width else widthV
  let height2 := if heightV = 0 then g.geometry.height else heightV
  let cell_width2 := clamp (orTruthy cell_width g.geometry.cell_width) MIN_CELL_WIDTH
  let cell_height2 := clamp (orTruthy cell_height g.geometry.cell_height) MIN_CELL_HEIGHT
  let column_padding2 := column_padding.getD g.geometry.column_padding
  let row_padding2 := row_padding.getD g.geometry.row_padding
  let geom : GridGeometry := ⟨width2, height2, cell_width2, cell_height2, column_padding2, row_padding2⟩
  let sr : Int × Int := ((width2 : Int) * ((cell_width2 : Int) + column_padding2),
    (height2 : Int) * ((cell_height2 : Int) + row_padding2))
  let g1 := { g with geometry := geom, orig_geometry := geom, scroll_region := sr }
  let g2 := if invalid_state_size then update_state_size g1 width2 height2 else g1
  let g3 := if invalid_dockable_geom then update_dockable_geometry g2 else g2
  (g3, geom)

/-- The `coln` computation of `Grid._find_next_empty_cell_group`:
`np.where(self._grid_state[:row_span, ::-1].sum(axis=0) == 0)[0].min() + 1`,
i.e. one plus the least reversed column index whose first `row_span`
rows are all empty, and 0 (the `ValueError` fallback) when no such
column exists. -/
def coln_calc (s : GridState) (row_span : Nat) : Nat :=
  match (List.range s.width).find? (fun j => revColEmpty s row_span j) with
  | some j => j + 1
  | none => 0

/-- `Grid._find_next_empty_cell_group`: nearest-fit search, and on
failure the growth path (`coln` counted from the reversed column sums,
then `set_geometry` and placement at the right edge, row 0). -/
def find_next_empty_cell_group (g : Grid) (col_span row_span : Nat) (from_ : Cell) :
    Grid × Cell :=
  match g.naive_search from_ col_span row_span with
  | some cell => (g, cell)
  | none =>
    let new_height : Option Nat := if row_span > g.geometry.height then some row_span else none
    let coln : Nat := coln_calc g.state row_span
    let g1 := (g.set_geometry (some (g.geometry.width + col_span - coln)) new_height
                none none none none).1
    (g1, ⟨(g1.geometry.width : Int) - (col_span : Int), 0⟩)

/-- `Grid._place_dockable`: populate the grid state, create the canvas
window at the computed bbox, and record the `DockableEntry`. -/
def place_dockable (g : Grid) (d : DockableMixin) (cell : Cell) : Grid :=
  let st := g.state.populate cell d.col_span d.row_span
  let bbox := calc_bbox g.geometry cell d.col_span d.row_span
  { g with state := st, dockables := insertEntry g.dockables d ⟨cell, bbox⟩ }

/-- `Grid.remove_dockable`: pop the registry entry, destroy the canvas
item, and unpopulate the entry's rectangle using the dockable's current
spans; `none` models the `KeyError` on an unregistered dockable. -/
def remove_dockable (g : Grid) (d : DockableMixin) : Option Grid :=
  (popEntry g.dockables d.id).map fun q =>
    { g with dockables := q.2,
             state := g.state.unpopulate q.1.cell d.col_span d.row_span }

/-- `Grid.register_dockable`: find an initial position (growing the grid
if needed) and place the dockable there.  The code performs no
already-registered check. -/
def register_dockable (g : Grid) (d : DockableMixin) : Grid :=
  let gc := g.find_next_empty_cell_group d.col_span d.row_span ⟨0, 0⟩
  place_dockable gc.1 d gc.2

/-- `Grid.move_dockable`: looks up the dockable's entry (`KeyError`,
modelled `none`, when unregistered) and then calls
`GridState.conflicts_where` — which raises `TypeError` on every call
(see `GridState.conflicts_where`), so the method always raises before
mutating anything and never returns the `bool` its docstring promises.
The remaining branches transcribe the unreachable rest of the source
(the containment check over the conflict indices, the conditional
remove-and-place commit, and the `(g, false)` decline). -/
def move_dockable (g : Grid) (d : DockableMixin) (cell : Cell) : Option (Grid × Bool) :=
  match g.dockables.find? (fun p => p.1.id == d.id) with
  | none => none
  | some p =>
    match g.state.conflicts_where cell d.col_span d.row_span with
    | none => none
    | some conflictsArr =>
      if conflictsArr.trueIndices.all
          (fun rc => contained_in ⟨(rc.2 : Int), (rc.1 : Int)⟩ p.2.cell
            d.col_span d.row_span) then
        (g.remove_dockable d).map fun g1 => (place_dockable g1 d cell, true)
      else
        some (g, false)

/-- `Grid.dockable_resized`: remove the dockable (unpopulating with its
new spans), re-run the search from its old top-left cell, and place it
at the result. -/
def dockable_resized (g : Grid) (d : DockableMixin) : Option Grid :=
  match g.dockables.find? (fun p => p.1.id == d.id) with
  | none => none
  | some p =>
    (g.remove_dockable d).map fun g1 =>
      let gc := g1.find_next_empty_cell_group d.col_span d.row_span p.2.cell
      place_dockable gc.1 d gc.2

/-- The `set_resize_protocol(RESIZE_PROTO_NONE)` path: record the
protocol, restore `orig_geometry`, unbind the resize callback, cancel
any pending debounce callback, and refresh the dockable bboxes. -/
def set_protocol_none (g : Grid) : Grid :=
  update_dockable_geometry
    { g with resize_protocol := some RESIZE_PROTO_NONE,
             geometry := g.orig_geometry,
             resize_after_id := false }

/-- `Grid._resize_after_callback`.  `rx`/`ry` are the values of
`_should_resize_x`/`_should_resize_y` (whether the corresponding
scrollbar is saturated, i.e. the viewport covers the scroll region —
tkinter state, supplied as arguments).  The returned flag records
whether the `ValueError` for an invalid/degenerate protocol was raised;
on that path `set_resize_protocol(RESIZE_PROTO_NONE)` has already run
and `_resize_data` is left set. -/
def resize_after_callback (g : Grid) (rx ry : Bool) : Grid × Bool :=
  if rx || ry then
    let sz := g.resize_data.getD ⟨0, 0⟩
    let xRes : Option (Nat × Int) :=
      if rx then
        if g.resize_protocol = some RESIZE_PROTO_EXPAND_CELLS then
          some (sz.width / g.geometry.width, g.orig_geometry.column_padding)
        else if g.resize_protocol = some RESIZE_PROTO_ADD_PADDING ∧ 1 < g.geometry.width then
          some (g.orig_geometry.cell_width,
            Int.fdiv ((sz.width : Int) - (g.geometry.width : Int) * (g.geometry.cell_width : Int))
              ((g.geometry.width : Int) - 1))
        else none
      else some (g.orig_geometry.cell_width, g.orig_geometry.column_padding)
    match xRes with
    | none => (g.set_protocol_none, true)
    | some cwcp =>
      let yRes : Option (Nat × Int) :=
        if ry then
          if g.resize_protocol = some RESIZE_PROTO_EXPAND_CELLS then
            some (sz.height / g.geometry.height, g.orig_geometry.row_padding)
          else if g.resize_protocol = some RESIZE_PROTO_ADD_PADDING ∧ 1 < g.geometry.height then
            some (g.orig_geometry.cell_height,
              Int.fdiv ((sz.height : Int) - (g.geometry.height : Int) * (g.geometry.cell_height : Int))
                ((g.geometry.height : Int) - 1))
          else none
        else some (g.orig_geometry.cell_height, g.orig_geometry.row_padding)
      match yRes with
      | none => (g.set_protocol_none, true)
      | some chrp =>
        let g1 := update_dockable_geometry
          { g with geometry := ⟨g.orig_geometry.width, g.orig_geometry.height,
                                cwcp.1, chrp.1, cwcp.2, chrp.2⟩ }
        ({ g1 with resize_data := none }, false)
  else if g.geometry ≠ g.orig_geometry then
    let g1 := update_dockable_geometry { g with geometry := g.orig_geometry }
    ({ g1 with resize_data := none }, false)
  else
    ({ g with resize_data := none }, false)

/-- `Grid.set_resize_protocol`: record the protocol and restore
`orig_geometry`; for `RESIZE_PROTO_NONE` unbind and cancel, otherwise
bind and simulate a resize callback once with the current window size
`sz` (read from tkinter) and scrollbar saturation `rx`/`ry`. -/
def set_resize_protocol (g : Grid) (protocol : Nat) (sz : Size) (rx ry : Bool) : Grid × Bool :=
  let g1 := { g with resize_protocol := some protocol, geometry := g.orig_geometry }
  if protocol = RESIZE_PROTO_NONE then
    (g1.set_protocol_none, false)
  else
    resize_after_callback { g1 with resize_data := some sz } rx ry

/-- `Grid.__init__`: raw geometry (not clamped), empty state and
registry, scroll region from the constructor arguments, then the
constructor's `set_resize_protocol` call. -/
def init (width height cell_width cell_height : Nat) (column_padding row_padding : Int)
    (protocol : Nat) (sz : Size) (rx ry : Bool) : Grid × Bool :=
  let geom : GridGeometry := ⟨width, height, cell_width, cell_height, column_padding, row_padding⟩
  let g : Grid :=
    { state := GridState.empty width height,
      dockables := [],
      geometry := geom,
      orig_geometry := geom,
      resize_protocol := none,
      resize_data := none,
      resize_after_id := false,
      scroll_region := ((width : Int) * ((cell_width : Int) + column_padding),
                        (height : Int) * ((cell_height : Int) + row_padding)) }
  g.set_resize_protocol protocol sz rx ry

end Grid

/-- Whether the rectangle `[cell.col, cell.col+col_span) × [cell.row,
cell.row+row_span)` lies entirely within a `width × height` grid. -/
def rectInBounds (width height : Nat) (cell : Cell) (col_span row_span : Nat) : Bool :=
  decide (0 ≤ cell.column) && decide (cell.column + col_span ≤ (width : Int)) &&
  decide (0 ≤ cell.row) && decide (cell.row + row_span ≤ (height : Int))

/-- Manhattan distance between two cells. -/
def manhattan (a b : Cell) : Nat := (a.column - b.column).natAbs + (a.row - b.row).natAbs

/-- Modelled from the spec (the `free_trailing` of the grid-growth
policy, §4.2): the number of trailing columns, counted from the right
edge, that are fully empty over the first `row_span` rows. -/
def freeTrailingSpec (s : GridState) (row_span : Nat) : Nat :=
  ((List.range s.width).takeWhile fun j => Grid.revColEmpty s row_span j).length

/-- A grid wrapping a bare `GridState` with matching geometry, used to
exercise `Grid._naive_search` in isolation. -/
def mkBareGrid (s : GridState) : Grid :=
  { state := s,
    dockables := [],
    geometry := ⟨s.width, s.height, 50, 50, 0, 0⟩,
    orig_geometry := ⟨s.width, s.height, 50, 50, 0, 0⟩,
    resize_protocol := some Grid.RESIZE_PROTO_NONE,
    resize_data := none,
    resize_after_id := false,
    scroll_region := (0, 0) }

/-- A 1×1 dockable with identity 0. -/
def dockA : DockableMixin := ⟨0, 1, 1⟩

/-- A second 1×1 dockable with identity 1. -/
def dockB : DockableMixin := ⟨1, 1, 1⟩

/-- A third 1×1 dockable with identity 2. -/
def dockC : DockableMixin := ⟨2, 1, 1⟩

/-- A 2×2 dockable with identity 3. -/
def dockD : DockableMixin := ⟨3, 2, 2⟩

/-- A freshly constructed 2×2 grid (resize protocol `NONE`). -/
def grid2x2 : Grid := (Grid.init 2 2 50 50 0 0 Grid.RESIZE_PROTO_NONE ⟨0, 0⟩ false false).1

/-- `grid2x2` after `register_dockable(dockA)` (placed at cell (0, 0)). -/
def gridC1a : Grid := grid2x2.register_dockable dockA

/-- `gridC1a` after `register_dockable(dockB)` (placed at cell (0, 1)). -/
def gridC1ab : Grid := gridC1a.register_dockable dockB

/-- `gridC1ab` after `register_dockable(dockC)` (placed at cell (1, 0)). -/
def gridC1abc : Grid := gridC1ab.register_dockable dockC

/-- `gridC1abc` after `remove_dockable(dockB)` and `remove_dockable(dockA)`:
only dockC remains, at cell (1, 0) — the rightmost column occupied, the
leftmost empty. -/
def gridC1b : Grid :=
  (((gridC1abc.remove_dockable dockB).getD gridC1abc).remove_dockable dockA).getD gridC1abc

/-- `gridC1b` after `register_dockable(dockD)` (the growth path runs). -/
def gridC1c : Grid := gridC1b.register_dockable dockD

/-- `gridC1a` after a second `register_dockable(dockA)` call. -/
def gridC8b : Grid := gridC1a.register_dockable dockA

/-- A freshly constructed 1×1 grid with dockA registered at (0, 0): a
full grid, so a second registration of dockA takes the growth path. -/
def gridC8full : Grid :=
  (Grid.init 1 1 50 50 0 0 Grid.RESIZE_PROTO_NONE ⟨0, 0⟩ false false).1.register_dockable dockA

/-- The 5×5 occupancy with exactly the cells (column 2, row 2) and
(column 3, row 0) free. -/
def gridStateC3 : GridState :=
  ⟨5, 5, fun r c => !((c == 2 && r == 2) || (c == 3 && r == 0))⟩

/-- An empty 5×5 occupancy. -/
def gridStateC9 : GridState := GridState.empty 5 5

/-- The 5×5 occupancy with exactly the cell (column 2, row 2) occupied. -/
def gridStateC9occ : GridState := (GridState.empty 5 5).populate ⟨2, 2⟩ 1 1

/-- The 2×2 occupancy with exactly the cell (column 0, row 0) occupied. -/
def gridStateC5 : GridState := ⟨2, 2, fun r c => r == 0 && c == 0⟩

/-- A freshly constructed 1×1 grid with the `ADD_PADDING` resize
protocol active (the constructor's simulated resize callback runs with
both scrollbars unsaturated, so it changes nothing). -/
def gridC7 : Grid :=
  (Grid.init 1 1 50 50 0 0 Grid.RESIZE_PROTO_ADD_PADDING ⟨200, 200⟩ false false).1

/-- C1.  The claimed occupancy/registry invariant is violated by a
sequence of register and remove calls alone (no moves, no drags): on a
fresh 2×2 grid, register three 1×1 dockables A, B, C (placed at (0, 0),
(0, 1), (1, 0) respectively), then remove B and A, leaving only C at
(1, 0).  Registering the 2×2 dockable D now takes the growth path,
which miscounts the reusable trailing columns (`coln = 2` though the
rightmost column is occupied), grows the width by zero, and places D at
(0, 0): the registered rectangles of C and D intersect at cell
(column 1, row 0), and after `remove_dockable(dockC)` that cell is
unoccupied even though registered D's rectangle covers it. -/
theorem c1_occupancy_invariant_violated :
    Grid.entryCell gridC1ab 1 = some ⟨0, 1⟩ ∧
    Grid.entryCell gridC1abc 2 = some ⟨1, 0⟩ ∧
    gridC1b.dockables.length = 1 ∧
    Grid.entryCell gridC1b 2 = some ⟨1, 0⟩ ∧
    Grid.entryCell gridC1c 2 = some ⟨1, 0⟩ ∧
    Grid.entryCell gridC1c 3 = some ⟨0, 0⟩ ∧
    Grid.contained_in ⟨1, 0⟩ ⟨1, 0⟩ 1 1 = true ∧
    Grid.contained_in ⟨1, 0⟩ ⟨0, 0⟩ 2 2 = true ∧
    (gridC1c.remove_dockable dockC).map (fun g => g.state.occ 0 1) = some false := by
  decide

/-- C2.  The growth path of `Grid._find_next_empty_cell_group`
contradicts the spec on the registry state of `gridC1b` (2×2 grid,
reached by registers and removes only, with the 1×1 dockC at (1, 0))
with spans 2×2: the nearest-fit search fails, `free_trailing` is 0, so
the claim requires the width to grow from 2 to 2 + (2 − 0) = 4 and a
conflict-free placement flush right; the code instead computes
`coln = 2`, leaves the width at 2, returns cell (0, 0), and that
placement overlaps the occupied cell (1, 0). -/
theorem c2_growth_policy_violated :
    Grid.naive_search gridC1b ⟨0, 0⟩ 2 2 = none ∧
    freeTrailingSpec gridC1b.state 2 = 0 ∧
    gridC1b.geometry.width = 2 ∧
    (gridC1b.find_next_empty_cell_group 2 2 ⟨0, 0⟩).1.geometry.width = 2 ∧
    (gridC1b.find_next_empty_cell_group 2 2 ⟨0, 0⟩).2 = ⟨0, 0⟩ ∧
    GridState.conflicts (gridC1b.find_next_empty_cell_group 2 2 ⟨0, 0⟩).1.state
      ⟨0, 0⟩ 2 2 = true := by
  decide

/-- C3.  `Grid._naive_search` is not Manhattan-minimal: on the 5×5
occupancy with exactly (2, 2) and (3, 0) free, searching from origin
(0, 0) with spans 1×1 returns (2, 2) at Manhattan distance 4, although
the in-bounds non-conflicting placement (3, 0) has distance 3 (the
ring at stage `mag = 2` contains (2, 2) but not (3, 0)). -/
theorem c3_naive_search_not_minimal :
    Grid.naive_search (mkBareGrid gridStateC3) ⟨0, 0⟩ 1 1 = some ⟨2, 2⟩ ∧
    gridStateC3.conflicts ⟨3, 0⟩ 1 1 = false ∧
    rectInBounds 5 5 ⟨3, 0⟩ 1 1 = true ∧
    manhattan ⟨3, 0⟩ ⟨0, 0⟩ = 3 ∧
    manhattan ⟨2, 2⟩ ⟨0, 0⟩ = 4 := by
  decide

/-- C9.  On an empty 5×5 grid the nearest-fit search from origin (2, 2)
with spans 1×1 returns (2, 2); after occupying exactly (2, 2) the same
search returns (1, 2), the documented tie-break among the four
distance-1 candidates. -/
theorem c9_nearest_fit_tiebreak :
    Grid.naive_search (mkBareGrid gridStateC9) ⟨2, 2⟩ 1 1 = some ⟨2, 2⟩ ∧
    Grid.naive_search (mkBareGrid gridStateC9occ) ⟨2, 2⟩ 1 1 = some ⟨1, 2⟩ := by
  decide

/-- C5, counterexample.  `GridState.conflicts` does not fail fast on an
out-of-bounds rectangle: on a 2×2 state whose only occupied cell is
(0, 0), the out-of-bounds query at cell (−2, 0) silently answers `true`
(Python slice normalization maps column −2 to column 0), and
`populate` at the same out-of-bounds cell silently writes cell (0, 0). -/
theorem c5_out_of_bounds_not_failfast :
    rectInBounds 2 2 ⟨-2, 0⟩ 1 1 = false ∧
    gridStateC5.conflicts ⟨-2, 0⟩ 1 1 = true ∧
    ((GridState.empty 2 2).populate ⟨-2, 0⟩ 1 1).occ 0 0 = true := by
  decide

/-- A 3×3 grid with 25-pixel cells and `EXPAND_CELLS` active whose
column padding was set to −20 through `set_geometry` (which does not
reject negative paddings): its scroll region width drops to
3 · (25 − 20) = 15 pixels. -/
def gridC6neg : Grid :=
  ((Grid.init 3 3 25 25 0 0 Grid.RESIZE_PROTO_EXPAND_CELLS ⟨0, 0⟩ false false).1.set_geometry
    none none none none (some (-20)) none).1

/-- C6, counterexample.  Two reachable violations of
`cell_width ≥ MIN_CELL_WIDTH`.  First, the constructor does not clamp
the cell sizes: a grid constructed with `cell_width=10` (resize
protocol `NONE`) violates the minimum with no further calls.  Second,
`set_geometry` does not reject negative paddings: on `gridC6neg`
(constructed with compliant values 3×3×25px, then
`set_geometry(column_padding=-20)`) the scroll region width is 15, so a
60-pixel viewport legitimately saturates the x scrollbar, and the
triggered `EXPAND_CELLS` callback commits
`cell_width = 60 // 3 = 20 < 25`. -/
theorem c6_min_cell_width_violations :
    (Grid.init 2 2 10 50 0 0 Grid.RESIZE_PROTO_NONE ⟨0, 0⟩ false false).1.geometry.cell_width
      = 10 ∧
    ¬ Grid.MIN_CELL_WIDTH ≤ 10 ∧
    gridC6neg.scroll_region.1 = 15 ∧
    (Grid.resize_after_callback { gridC6neg with resize_data := some ⟨60, 60⟩ }
      true false).1.geometry.cell_width = 20 ∧
    ¬ Grid.MIN_CELL_WIDTH ≤ 20 := by
  decide

/-- C7, counterexample.  On `gridC7` (1 column, `ADD_PADDING` active) a
resize callback with the x-scrollbar saturated does not fall back to no
change: it raises `ValueError` and switches the active protocol to
`RESIZE_PROTO_NONE`. -/
theorem c7_degenerate_padding_raises :
    gridC7.resize_protocol = some Grid.RESIZE_PROTO_ADD_PADDING ∧
    gridC7.geometry.width = 1 ∧
    (gridC7.resize_after_callback true false).2 = true ∧
    (gridC7.resize_after_callback true false).1.resize_protocol
      = some Grid.RESIZE_PROTO_NONE := by
  decide

/-- C8, counterexample.  `register_dockable` on the already-registered
`dockA` does not fail fast and does not leave the state unchanged: the
call completes, moves the registry entry from (0, 0) to (0, 1), and
leaves the old cell (0, 0) still marked occupied even though dockA's
new rectangle does not cover it (orphaned occupancy). -/
theorem c8_double_register_not_failfast :
    Grid.entryCell gridC1a 0 = some ⟨0, 0⟩ ∧
    Grid.entryCell gridC8b 0 = some ⟨0, 1⟩ ∧
    gridC8b.dockables.length = 1 ∧
    gridC8b.state.occ 0 0 = true ∧
    Grid.contained_in ⟨0, 0⟩ ⟨0, 1⟩ 1 1 = false := by
  decide

theorem mem_natRange {a b x : Nat} : x ∈ natRange a b ↔ a ≤ x ∧ x < b := by
  simp only [natRange, List.mem_map, List.mem_range]
  constructor
  · rintro ⟨i, hi, rfl⟩
    omega
  · rintro ⟨h1, h2⟩
    exact ⟨x - a, by omega, by omega⟩

theorem find?_insertEntry (l : List (DockableMixin × DockableEntry)) (d : DockableMixin)
    (e : DockableEntry) :
    (Grid.insertEntry l d e).find? (fun p => p.1.id == d.id) = some (d, e) := by
  induction l with
  | nil => simp [Grid.insertEntry]
  | cons p ps ih =>
    by_cases h : p.1.id = d.id
    · simp [Grid.insertEntry, h]
    · simp [Grid.insertEntry, h, ih]

theorem entryCell_place (g : Grid) (d : DockableMixin) (cell : Cell) :
    Grid.entryCell (g.place_dockable d cell) d.id = some cell := by
  simp [Grid.entryCell, Grid.place_dockable, find?_insertEntry]

/-- C4.  `move_dockable` never returns: `GridState.populate` has no
`return` statement, so `GridState.conflicts_where` evaluates
`None & self` and raises `TypeError` on every call, and `move_dockable`
— its only caller — raises there on every call, before any mutation,
instead of returning the `bool` its docstring (and the claim) describe.
Evaluated at a concrete registered dockable and a conflict-free target
cell: the call yields the error, with the registry entry untouched. -/
theorem c4_move_always_raises :
    gridC1a.move_dockable dockA ⟨1, 0⟩ = none ∧
    GridState.conflicts_where gridC1a.state ⟨1, 0⟩ 1 1 = none ∧
    Grid.entryCell gridC1a dockA.id = some ⟨0, 0⟩ :=
  ⟨rfl, rfl, by decide⟩

/-- C5, amended.  `conflicts` and `populate`/`unpopulate` (via
`GridState._set`) never raise on an out-of-bounds rectangle: Python
slice normalization clamps each endpoint to the axis length and counts
negative coordinates from the opposite edge, so `conflicts` answers
exactly about the normalized cell set and `_set` writes exactly that
set. -/
theorem c5_slice_normalization (s : GridState) (cell : Cell) (col_span row_span : Nat) :
    (s.conflicts cell col_span row_span = true ↔
      ∃ r c : Nat,
        sliceNorm s.height cell.row ≤ r ∧ r < sliceNorm s.height (cell.row + row_span) ∧
        sliceNorm s.width cell.column ≤ c ∧ c < sliceNorm s.width (cell.column + col_span) ∧
        s.occ r c = true) ∧
    ∀ (val : Bool) (r c : Nat),
      (s.setCells cell col_span row_span val).occ r c =
        if GridState.inSlice s.width s.height cell col_span row_span r c then val
        else s.occ r c := by
  constructor
  · simp only [GridState.conflicts, List.any_eq_true, mem_natRange]
    constructor
    · rintro ⟨r, ⟨h1, h2⟩, c, ⟨h3, h4⟩, h5⟩
      exact ⟨r, c, h1, h2, h3, h4, h5⟩
    · rintro ⟨r, c, h1, h2, h3, h4, h5⟩
      exact ⟨r, ⟨h1, h2⟩, c, ⟨h3, h4⟩, h5⟩
  · intro val r c
    rfl

/-- C7, amended.  When `ADD_PADDING` is active and a triggered axis has
at most one column (respectively at most one row), the resize callback
does not divide by zero, but it does not fall back to no change
either: it runs `set_resize_protocol(RESIZE_PROTO_NONE)` — switching
the active protocol and restoring `orig_geometry` — and raises
`ValueError` (leaving the occupancy and the registry cells
untouched). -/
theorem c7_add_padding_degenerate (g : Grid) (rx ry : Bool)
    (hp : g.resize_protocol = some Grid.RESIZE_PROTO_ADD_PADDING)
    (hdeg : (rx = true ∧ g.geometry.width ≤ 1) ∨ (ry = true ∧ g.geometry.height ≤ 1)) :
    g.resize_after_callback rx ry = (g.set_protocol_none, true) ∧
    (g.set_protocol_none).resize_protocol = some Grid.RESIZE_PROTO_NONE ∧
    (g.set_protocol_none).geometry = g.orig_geometry ∧
    (g.set_protocol_none).state = g.state ∧
    (g.set_protocol_none).dockables.map (fun p => (p.1, p.2.cell))
      = g.dockables.map (fun p => (p.1, p.2.cell)) := by
  have h1 : ¬ g.resize_protocol = some Grid.RESIZE_PROTO_EXPAND_CELLS := by
    rw [hp]
    simp [Grid.RESIZE_PROTO_ADD_PADDING, Grid.RESIZE_PROTO_EXPAND_CELLS]
  refine ⟨?_, ?_, ?_, ?_, ?_⟩
  · unfold Grid.resize_after_callback
    rcases hdeg with ⟨hrx, hw⟩ | ⟨hry, hh⟩
    · subst hrx
      have h2 : ¬ (g.resize_protocol = some Grid.RESIZE_PROTO_ADD_PADDING ∧
          1 < g.geometry.width) := by
        rintro ⟨-, h⟩
        omega
      simp [h1, h2]
    · subst hry
      have h3 : ¬ (g.resize_protocol = some Grid.RESIZE_PROTO_ADD_PADDING ∧
          1 < g.geometry.height) := by
        rintro ⟨-, h⟩
        omega
      cases rx with
      | false => simp [h1, h3]
      | true =>
        by_cases h4 : g.resize_protocol = some Grid.RESIZE_PROTO_ADD_PADDING ∧
            1 < g.geometry.width
        · simp [h1, h3, eq_true h4]
        · simp [h1, h4]
  · simp [Grid.set_protocol_none, Grid.update_dockable_geometry]
  · simp [Grid.set_protocol_none, Grid.update_dockable_geometry]
  · simp [Grid.set_protocol_none, Grid.update_dockable_geometry]
  · simp [Grid.set_protocol_none, Grid.update_dockable_geometry]

theorem populate_sets (s : GridState) (cell : Cell) (cs rs : Nat) (r c : Nat)
    (h : GridState.inSlice s.width s.height cell cs rs r c = true) :
    (s.populate cell cs rs).occ r c = true := by
  simp only [GridState.populate, GridState.setCells]
  rw [if_pos h]

theorem populate_mono (s : GridState) (cell : Cell) (cs rs : Nat) (r c : Nat)
    (h : s.occ r c = true) : (s.populate cell cs rs).occ r c = true := by
  simp only [GridState.populate, GridState.setCells]
  split
  · rfl
  · exact h

theorem foldl_populate_mono (l : List (DockableMixin × DockableEntry)) (s : GridState)
    (r c : Nat) (h : s.occ r c = true) :
    (l.foldl (fun s q => s.populate q.2.cell q.1.col_span q.1.row_span) s).occ r c = true := by
  induction l generalizing s with
  | nil => exact h
  | cons q qs ih => exact ih _ (populate_mono s q.2.cell q.1.col_span q.1.row_span r c h)

theorem foldl_populate_dims (l : List (DockableMixin × DockableEntry)) (s : GridState) :
    (l.foldl (fun s q => s.populate q.2.cell q.1.col_span q.1.row_span) s).width = s.width ∧
    (l.foldl (fun s q => s.populate q.2.cell q.1.col_span q.1.row_span) s).height
      = s.height := by
  induction l generalizing s with
  | nil => exact ⟨rfl, rfl⟩
  | cons q qs ih => exact ih _

theorem foldl_populate_mem (l : List (DockableMixin × DockableEntry)) (s : GridState)
    (p : DockableMixin × DockableEntry) (hp : p ∈ l) (r c : Nat)
    (h : GridState.inSlice s.width s.height p.2.cell p.1.col_span p.1.row_span r c = true) :
    (l.foldl (fun s q => s.populate q.2.cell q.1.col_span q.1.row_span) s).occ r c = true := by
  induction l generalizing s with
  | nil => cases hp
  | cons q qs ih =>
    rcases List.mem_cons.mp hp with rfl | hmem
    · exact foldl_populate_mono qs _ r c
        (populate_sets s p.2.cell p.1.col_span p.1.row_span r c h)
    · exact ih _ hmem h

theorem insertEntry_length (l : List (DockableMixin × DockableEntry)) (d : DockableMixin)
    (e : DockableEntry) (p : DockableMixin × DockableEntry)
    (h : l.find? (fun q => q.1.id == d.id) = some p) :
    (Grid.insertEntry l d e).length = l.length := by
  induction l with
  | nil => simp at h
  | cons q qs ih =>
    by_cases hq : q.1.id = d.id
    · simp [Grid.insertEntry, hq]
    · have hh : qs.find? (fun r => r.1.id == d.id) = some p := by
        simpa [List.find?_cons, hq] using h
      simp [Grid.insertEntry, hq, ih hh]

theorem set_geometry_wh_dockables (g : Grid) (w h : Option Nat) :
    (g.set_geometry w h none none none none).1.dockables = g.dockables := by
  simp only [Grid.set_geometry, Grid.truthyN, Grid.truthyI, Bool.or_false, Bool.false_or,
    Bool.or_self]
  split
  next hco => exact absurd hco (by decide)
  next => split <;> rfl

theorem set_geometry_wh_state_rebuilt (g : Grid) (w : Nat) (h : Option Nat) (hw : 1 ≤ w) :
    ∃ w2 h2 : Nat, (g.set_geometry (some w) h none none none none).1.state
      = g.dockables.foldl (fun s q => s.populate q.2.cell q.1.col_span q.1.row_span)
        (GridState.empty w2 h2) := by
  have hbne : (w != 0) = true := by
    simp only [bne_iff_ne, ne_eq]
    omega
  simp only [Grid.set_geometry, Grid.truthyN, Grid.truthyI, Bool.or_false, Bool.false_or,
    Bool.or_self, hbne, Bool.true_or]
  split
  next hco => exact absurd hco (by decide)
  next =>
    split
    next => exact ⟨_, _, rfl⟩
    next hcs => exact absurd trivial hcs

theorem coln_calc_le (s : GridState) (rs : Nat) : Grid.coln_calc s rs ≤ s.width := by
  unfold Grid.coln_calc
  cases hf : (List.range s.width).find? (fun j => Grid.revColEmpty s rs j) with
  | none => exact Nat.zero_le _
  | some j => exact List.mem_range.mp (List.mem_of_find?_eq_some hf)

theorem find_next_dockables (g : Grid) (cs rs : Nat) (f : Cell) :
    (g.find_next_empty_cell_group cs rs f).1.dockables = g.dockables := by
  unfold Grid.find_next_empty_cell_group
  cases hs : g.naive_search f cs rs with
  | some c => rfl
  | none => exact set_geometry_wh_dockables g _ _

theorem find_next_growth_state (g : Grid) (cs rs : Nat) (f : Cell)
    (hs : g.naive_search f cs rs = none) (hcs : 1 ≤ cs)
    (hwf : g.state.width = g.geometry.width) :
    ∃ w2 h2 : Nat, (g.find_next_empty_cell_group cs rs f).1.state
      = g.dockables.foldl (fun s q => s.populate q.2.cell q.1.col_span q.1.row_span)
        (GridState.empty w2 h2) := by
  unfold Grid.find_next_empty_cell_group
  rw [hs]
  have hcol := coln_calc_le g.state rs
  exact set_geometry_wh_state_rebuilt g _ _ (by omega)

/-- C8, amended.  `register_dockable` performs no already-registered
check and raises nothing: called on an already-registered dockable (one
with a registry entry, spans at least 1, the occupancy array sized to
the geometry as the class maintains), it re-runs find-or-grow with the
dockable's own cells still reading as occupied, overwrites the
dockable's registry entry with the newly found cell (the registry keeps
a single entry for it), and never clears occupancy: in the nearest-fit
path the entire pre-call occupancy — the old rectangle included —
persists, and in the growth path the rebuilt occupancy re-marks every
registered rectangle including the dockable's old one.  The old cells
therefore stay occupied with no entry accounting for them: the dockable
is silently placed a second time. -/
theorem c8_register_overwrites (g : Grid) (d : DockableMixin)
    (p : DockableMixin × DockableEntry)
    (hreg : g.dockables.find? (fun q => q.1.id == d.id) = some p)
    (hcs : 1 ≤ d.col_span)
    (hwf : g.state.width = g.geometry.width) :
    Grid.entryCell (g.register_dockable d) d.id
      = some (g.find_next_empty_cell_group d.col_span d.row_span ⟨0, 0⟩).2 ∧
    (g.register_dockable d).dockables.length = g.dockables.length ∧
    (∀ cc : Cell, g.naive_search ⟨0, 0⟩ d.col_span d.row_span = some cc →
      ∀ r c : Nat, g.state.occ r c = true → (g.register_dockable d).state.occ r c = true) ∧
    (g.naive_search ⟨0, 0⟩ d.col_span d.row_span = none →
      ∀ r c : Nat,
        GridState.inSlice
          (g.find_next_empty_cell_group d.col_span d.row_span ⟨0, 0⟩).1.state.width
          (g.find_next_empty_cell_group d.col_span d.row_span ⟨0, 0⟩).1.state.height
          p.2.cell p.1.col_span p.1.row_span r c = true →
        (g.register_dockable d).state.occ r c = true) := by
  refine ⟨?_, ?_, ?_, ?_⟩
  · exact entryCell_place _ d _
  · have h1 := find_next_dockables g d.col_span d.row_span ⟨0, 0⟩
    have h2 : (g.find_next_empty_cell_group d.col_span d.row_span ⟨0, 0⟩).1.dockables.find?
        (fun q => q.1.id == d.id) = some p := by
      rw [h1]
      exact hreg
    simp only [Grid.register_dockable, Grid.place_dockable]
    rw [insertEntry_length _ _ _ p h2, h1]
  · intro cc hcc r c hocc
    simp only [Grid.register_dockable, Grid.find_next_empty_cell_group, hcc,
      Grid.place_dockable]
    exact populate_mono _ _ _ _ r c hocc
  · intro hs r c hin
    obtain ⟨w2, h2, hst⟩ :=
      find_next_growth_state g d.col_span d.row_span ⟨0, 0⟩ hs hcs hwf
    have hdims := foldl_populate_dims g.dockables (GridState.empty w2 h2)
    rw [hst, hdims.1, hdims.2] at hin
    have hocc := foldl_populate_mem g.dockables (GridState.empty w2 h2) p
      (List.mem_of_find?_eq_some hreg) r c hin
    simp only [Grid.register_dockable, Grid.place_dockable]
    refine populate_mono _ _ _ _ r c ?_
    rw [hst]
    exact hocc

/-- C10.  Every `set_geometry` call sets `orig_geometry` to the newly
computed geometry, which is also its return value and the new current
geometry; consequently a subsequent resize callback that finds neither
direction triggered (the viewport shrank back) keeps/restores exactly
this most recently set geometry as the baseline. -/
theorem c10_set_geometry_resets_baseline (g : Grid)
    (width height cell_width cell_height : Option Nat)
    (column_padding row_padding : Option Int) :
    (g.set_geometry width height cell_width cell_height column_padding row_padding).1.orig_geometry
      = (g.set_geometry width height cell_width cell_height column_padding row_padding).2 ∧
    (g.set_geometry width height cell_width cell_height column_padding row_padding).1.geometry
      = (g.set_geometry width height cell_width cell_height column_padding row_padding).2 ∧
    (((g.set_geometry width height cell_width cell_height column_padding
        row_padding).1.resize_after_callback false false)).1.geometry
      = (g.set_geometry width height cell_width cell_height column_padding row_padding).2 := by
  have ho : (g.set_geometry width height cell_width cell_height column_padding
      row_padding).1.orig_geometry
      = (g.set_geometry width height cell_width cell_height column_padding row_padding).2 := by
    simp only [Grid.set_geometry]
    split <;> split <;> rfl
  have hg : (g.set_geometry width height cell_width cell_height column_padding
      row_padding).1.geometry
      = (g.set_geometry width height cell_width cell_height column_padding row_padding).2 := by
    simp only [Grid.set_geometry]
    split <;> split <;> rfl
  refine ⟨ho, hg, ?_⟩
  have hne : ¬ ((g.set_geometry width height cell_width cell_height column_padding
      row_padding).1.geometry
      ≠ (g.set_geometry width height cell_width cell_height column_padding
        row_padding).1.orig_geometry) := by
    rw [hg, ho]
    simp
  unfold Grid.resize_after_callback
  simp only [Bool.or_self]
  rw [if_neg (by simp : ¬ false = true)]
  rw [if_neg hne]
  exact hg

theorem clamp_le (n m : Nat) : m ≤ Grid.clamp n m := by
  unfold Grid.clamp
  split <;> omega

theorem min_le_div (ow cw sw m : Nat) (cp : Int) (h1 : 1 ≤ ow) (h2 : m ≤ cw) (h3 : 0 ≤ cp)
    (h4 : (ow : Int) * ((cw : Int) + cp) ≤ (sw : Int)) : m ≤ sw / ow := by
  have h5 : ((ow * cw : Nat) : Int) ≤ (sw : Int) := by
    push_cast
    calc ((ow : Int) * cw) ≤ (ow : Int) * ((cw : Int) + cp) := by
          apply mul_le_mul_of_nonneg_left (by linarith) (by positivity)
      _ ≤ (sw : Int) := h4
  have h6 : ow * cw ≤ sw := by exact_mod_cast h5
  have h7 : m * ow ≤ sw :=
    calc m * ow ≤ cw * ow := Nat.mul_le_mul_right ow h2
      _ = ow * cw := Nat.mul_comm cw ow
      _ ≤ sw := h6
  exact (Nat.le_div_iff_mul_le h1).mpr h7

/-- The geometry invariant maintained by every grid whose constructor
arguments respected the minima: current and baseline cell sizes at
least the fixed minima, nonnegative paddings, positive extents, the
scroll region consistent with the baseline geometry, and (while
`ADD_PADDING` is active) current cell sizes agreeing with the
baseline. -/
structure GeomInv (g : Grid) : Prop where
  cw_min : Grid.MIN_CELL_WIDTH ≤ g.geometry.cell_width
  ch_min : Grid.MIN_CELL_HEIGHT ≤ g.geometry.cell_height
  ocw_min : Grid.MIN_CELL_WIDTH ≤ g.orig_geometry.cell_width
  och_min : Grid.MIN_CELL_HEIGHT ≤ g.orig_geometry.cell_height
  ocp_nonneg : 0 ≤ g.orig_geometry.column_padding
  orp_nonneg : 0 ≤ g.orig_geometry.row_padding
  cp_nonneg : 0 ≤ g.geometry.column_padding
  rp_nonneg : 0 ≤ g.geometry.row_padding
  w_eq : g.geometry.width = g.orig_geometry.width
  h_eq : g.geometry.height = g.orig_geometry.height
  ow_pos : 1 ≤ g.orig_geometry.width
  oh_pos : 1 ≤ g.orig_geometry.height
  sr_w : g.scroll_region.1 = (g.orig_geometry.width : Int) *
    ((g.orig_geometry.cell_width : Int) + g.orig_geometry.column_padding)
  sr_h : g.scroll_region.2 = (g.orig_geometry.height : Int) *
    ((g.orig_geometry.cell_height : Int) + g.orig_geometry.row_padding)
  pad_sync : g.resize_protocol = some Grid.RESIZE_PROTO_ADD_PADDING →
    g.geometry.cell_width = g.orig_geometry.cell_width ∧
    g.geometry.cell_height = g.orig_geometry.cell_height

theorem geomInv_set_protocol_none (g : Grid) (hg : GeomInv g) : GeomInv g.set_protocol_none :=
  { cw_min := hg.ocw_min, ch_min := hg.och_min, ocw_min := hg.ocw_min, och_min := hg.och_min,
    ocp_nonneg := hg.ocp_nonneg, orp_nonneg := hg.orp_nonneg,
    cp_nonneg := hg.ocp_nonneg, rp_nonneg := hg.orp_nonneg,
    w_eq := rfl, h_eq := rfl, ow_pos := hg.ow_pos, oh_pos := hg.oh_pos,
    sr_w := hg.sr_w, sr_h := hg.sr_h,
    pad_sync := fun hp => by
      simp [Grid.set_protocol_none, Grid.update_dockable_geometry, Grid.RESIZE_PROTO_NONE,
        Grid.RESIZE_PROTO_ADD_PADDING] at hp }

theorem geomInv_commit (g : Grid) (cw ch : Nat) (cp rp : Int) (hg : GeomInv g)
    (h1 : Grid.MIN_CELL_WIDTH ≤ cw) (h2 : Grid.MIN_CELL_HEIGHT ≤ ch)
    (h3 : 0 ≤ cp) (h4 : 0 ≤ rp)
    (h5 : g.resize_protocol = some Grid.RESIZE_PROTO_ADD_PADDING →
      cw = g.orig_geometry.cell_width ∧ ch = g.orig_geometry.cell_height) :
    GeomInv ({ Grid.update_dockable_geometry
      { g with geometry := ⟨g.orig_geometry.width, g.orig_geometry.height, cw, ch, cp, rp⟩ }
      with resize_data := none }) :=
  { cw_min := h1, ch_min := h2, ocw_min := hg.ocw_min, och_min := hg.och_min,
    ocp_nonneg := hg.ocp_nonneg, orp_nonneg := hg.orp_nonneg,
    cp_nonneg := h3, rp_nonneg := h4,
    w_eq := rfl, h_eq := rfl, ow_pos := hg.ow_pos, oh_pos := hg.oh_pos,
    sr_w := hg.sr_w, sr_h := hg.sr_h,
    pad_sync := fun hp => h5 hp }

theorem xres_some (g : Grid) (rx : Bool) (cwcp : Nat × Int) (hg : GeomInv g)
    (hrx : rx = true → g.scroll_region.1 ≤ ((g.resize_data.getD ⟨0, 0⟩).width : Int))
    (hx : (if rx then
        if g.resize_protocol = some Grid.RESIZE_PROTO_EXPAND_CELLS then
          some ((g.resize_data.getD ⟨0, 0⟩).width / g.geometry.width,
            g.orig_geometry.column_padding)
        else if g.resize_protocol = some Grid.RESIZE_PROTO_ADD_PADDING ∧
            1 < g.geometry.width then
          some (g.orig_geometry.cell_width,
            Int.fdiv (((g.resize_data.getD ⟨0, 0⟩).width : Int)
                - (g.geometry.width : Int) * (g.geometry.cell_width : Int))
              ((g.geometry.width : Int) - 1))
        else none
      else some (g.orig_geometry.cell_width, g.orig_geometry.column_padding)) = some cwcp) :
    Grid.MIN_CELL_WIDTH ≤ cwcp.1 ∧ 0 ≤ cwcp.2 ∧
      (g.resize_protocol = some Grid.RESIZE_PROTO_ADD_PADDING →
        cwcp.1 = g.orig_geometry.cell_width) := by
  obtain ⟨cw1, cp1⟩ := cwcp
  cases rx with
  | false =>
    rw [if_neg (by simp : ¬ (false : Bool) = true)] at hx
    simp only [Option.some.injEq, Prod.mk.injEq] at hx
    obtain ⟨e1, e2⟩ := hx
    have := hg.ocw_min
    have := hg.ocp_nonneg
    exact ⟨by omega, by omega, fun _ => by omega⟩
  | true =>
    rw [if_pos rfl] at hx
    by_cases hE : g.resize_protocol = some Grid.RESIZE_PROTO_EXPAND_CELLS
    · rw [if_pos hE] at hx
      simp only [Option.some.injEq, Prod.mk.injEq] at hx
      obtain ⟨e1, e2⟩ := hx
      have hdiv : Grid.MIN_CELL_WIDTH ≤ (g.resize_data.getD ⟨0, 0⟩).width / g.geometry.width := by
        have hsw := hrx rfl
        rw [hg.sr_w] at hsw
        rw [hg.w_eq]
        exact min_le_div g.orig_geometry.width g.orig_geometry.cell_width
          (g.resize_data.getD ⟨0, 0⟩).width Grid.MIN_CELL_WIDTH g.orig_geometry.column_padding
          hg.ow_pos hg.ocw_min hg.ocp_nonneg hsw
      refine ⟨by omega, ?_, ?_⟩
      · have := hg.ocp_nonneg
        omega
      · intro hp
        rw [hE] at hp
        simp [Grid.RESIZE_PROTO_EXPAND_CELLS, Grid.RESIZE_PROTO_ADD_PADDING] at hp
    · rw [if_neg hE] at hx
      by_cases hA : g.resize_protocol = some Grid.RESIZE_PROTO_ADD_PADDING ∧
          1 < g.geometry.width
      · rw [if_pos hA] at hx
        simp only [Option.some.injEq, Prod.mk.injEq] at hx
        obtain ⟨e1, e2⟩ := hx
        have hnum : 0 ≤ ((g.resize_data.getD ⟨0, 0⟩).width : Int)
            - (g.geometry.width : Int) * (g.geometry.cell_width : Int) := by
          have hsw := hrx rfl
          rw [hg.sr_w] at hsw
          have hcw := (hg.pad_sync hA.1).1
          have hww := hg.w_eq
          rw [hww, hcw]
          have hpos : 0 ≤ (g.orig_geometry.width : Int) * g.orig_geometry.column_padding :=
            mul_nonneg (by positivity) hg.ocp_nonneg
          have hexp : (g.orig_geometry.width : Int) *
              ((g.orig_geometry.cell_width : Int) + g.orig_geometry.column_padding)
              = (g.orig_geometry.width : Int) * (g.orig_geometry.cell_width : Int)
                + (g.orig_geometry.width : Int) * g.orig_geometry.column_padding := by ring
          linarith
        have hden : 0 ≤ (g.geometry.width : Int) - 1 := by
          have := hA.2
          omega
        have hfd := Int.fdiv_nonneg hnum hden
        have := hg.ocw_min
        exact ⟨by omega, by omega, fun _ => by omega⟩
      · rw [if_neg hA] at hx
        simp at hx

theorem yres_some (g : Grid) (ry : Bool) (chrp : Nat × Int) (hg : GeomInv g)
    (hry : ry = true → g.scroll_region.2 ≤ ((g.resize_data.getD ⟨0, 0⟩).height : Int))
    (hy : (if ry then
        if g.resize_protocol = some Grid.RESIZE_PROTO_EXPAND_CELLS then
          some ((g.resize_data.getD ⟨0, 0⟩).height / g.geometry.height,
            g.orig_geometry.row_padding)
        else if g.resize_protocol = some Grid.RESIZE_PROTO_ADD_PADDING ∧
            1 < g.geometry.height then
          some (g.orig_geometry.cell_height,
            Int.fdiv (((g.resize_data.getD ⟨0, 0⟩).height : Int)
                - (g.geometry.height : Int) * (g.geometry.cell_height : Int))
              ((g.geometry.height : Int) - 1))
        else none
      else some (g.orig_geometry.cell_height, g.orig_geometry.row_padding)) = some chrp) :
    Grid.MIN_CELL_HEIGHT ≤ chrp.1 ∧ 0 ≤ chrp.2 ∧
      (g.resize_protocol = some Grid.RESIZE_PROTO_ADD_PADDING →
        chrp.1 = g.orig_geometry.cell_height) := by
  obtain ⟨ch1, rp1⟩ := chrp
  cases ry with
  | false =>
    rw [if_neg (by simp : ¬ (false : Bool) = true)] at hy
    simp only [Option.some.injEq, Prod.mk.injEq] at hy
    obtain ⟨e1, e2⟩ := hy
    have := hg.och_min
    have := hg.orp_nonneg
    exact ⟨by omega, by omega, fun _ => by omega⟩
  | true =>
    rw [if_pos rfl] at hy
    by_cases hE : g.resize_protocol = some Grid.RESIZE_PROTO_EXPAND_CELLS
    · rw [if_pos hE] at hy
      simp only [Option.some.injEq, Prod.mk.injEq] at hy
      obtain ⟨e1, e2⟩ := hy
      have hdiv : Grid.MIN_CELL_HEIGHT ≤ (g.resize_data.getD ⟨0, 0⟩).height / g.geometry.height := by
        have hsh := hry rfl
        rw [hg.sr_h] at hsh
        rw [hg.h_eq]
        exact min_le_div g.orig_geometry.height g.orig_geometry.cell_height
          (g.resize_data.getD ⟨0, 0⟩).height Grid.MIN_CELL_HEIGHT g.orig_geometry.row_padding
          hg.oh_pos hg.och_min hg.orp_nonneg hsh
      refine ⟨by omega, ?_, ?_⟩
      · have := hg.orp_nonneg
        omega
      · intro hp
        rw [hE] at hp
        simp [Grid.RESIZE_PROTO_EXPAND_CELLS, Grid.RESIZE_PROTO_ADD_PADDING] at hp
    · rw [if_neg hE] at hy
      by_cases hA : g.resize_protocol = some Grid.RESIZE_PROTO_ADD_PADDING ∧
          1 < g.geometry.height
      · rw [if_pos hA] at hy
        simp only [Option.some.injEq, Prod.mk.injEq] at hy
        obtain ⟨e1, e2⟩ := hy
        have hnum : 0 ≤ ((g.resize_data.getD ⟨0, 0⟩).height : Int)
            - (g.geometry.height : Int) * (g.geometry.cell_height : Int) := by
          have hsh := hry rfl
          rw [hg.sr_h] at hsh
          have hch := (hg.pad_sync hA.1).2
          have hhh := hg.h_eq
          rw [hhh, hch]
          have hpos : 0 ≤ (g.orig_geometry.height : Int) * g.orig_geometry.row_padding :=
            mul_nonneg (by positivity) hg.orp_nonneg
          have hexp : (g.orig_geometry.height : Int) *
              ((g.orig_geometry.cell_height : Int) + g.orig_geometry.row_padding)
              = (g.orig_geometry.height : Int) * (g.orig_geometry.cell_height : Int)
                + (g.orig_geometry.height : Int) * g.orig_geometry.row_padding := by ring
          linarith
        have hden : 0 ≤ (g.geometry.height : Int) - 1 := by
          have := hA.2
          omega
        have hfd := Int.fdiv_nonneg hnum hden
        have := hg.och_min
        exact ⟨by omega, by omega, fun _ => by omega⟩
      · rw [if_neg hA] at hy
        simp at hy

theorem geomInv_resize_after_callback (g : Grid) (rx ry : Bool) (hg : GeomInv g)
    (hrx : rx = true → g.scroll_region.1 ≤ ((g.resize_data.getD ⟨0, 0⟩).width : Int))
    (hry : ry = true → g.scroll_region.2 ≤ ((g.resize_data.getD ⟨0, 0⟩).height : Int)) :
    GeomInv (g.resize_after_callback rx ry).1 := by
  by_cases hor : (rx || ry) = true
  · unfold Grid.resize_after_callback
    rw [if_pos hor]
    dsimp only
    cases hxe : (if rx then
        if g.resize_protocol = some Grid.RESIZE_PROTO_EXPAND_CELLS then
          some ((g.resize_data.getD ⟨0, 0⟩).width / g.geometry.width,
            g.orig_geometry.column_padding)
        else if g.resize_protocol = some Grid.RESIZE_PROTO_ADD_PADDING ∧
            1 < g.geometry.width then
          some (g.orig_geometry.cell_width,
            Int.fdiv (((g.resize_data.getD ⟨0, 0⟩).width : Int)
                - (g.geometry.width : Int) * (g.geometry.cell_width : Int))
              ((g.geometry.width : Int) - 1))
        else none
      else some (g.orig_geometry.cell_width, g.orig_geometry.column_padding)) with
    | none => exact geomInv_set_protocol_none g hg
    | some cwcp =>
      dsimp only
      cases hye : (if ry then
          if g.resize_protocol = some Grid.RESIZE_PROTO_EXPAND_CELLS then
            some ((g.resize_data.getD ⟨0, 0⟩).height / g.geometry.height,
              g.orig_geometry.row_padding)
          else if g.resize_protocol = some Grid.RESIZE_PROTO_ADD_PADDING ∧
              1 < g.geometry.height then
            some (g.orig_geometry.cell_height,
              Int.fdiv (((g.resize_data.getD ⟨0, 0⟩).height : Int)
                  - (g.geometry.height : Int) * (g.geometry.cell_height : Int))
                ((g.geometry.height : Int) - 1))
          else none
        else some (g.orig_geometry.cell_height, g.orig_geometry.row_padding)) with
      | none => exact geomInv_set_protocol_none g hg
      | some chrp =>
        obtain ⟨a1, a2, a3⟩ := xres_some g rx cwcp hg hrx hxe
        obtain ⟨b1, b2, b3⟩ := yres_some g ry chrp hg hry hye
        exact geomInv_commit g cwcp.1 chrp.1 cwcp.2 chrp.2 hg a1 b1 a2 b2
          (fun hp => ⟨a3 hp, b3 hp⟩)
  · unfold Grid.resize_after_callback
    rw [if_neg hor]
    split
    · exact
        { cw_min := hg.ocw_min, ch_min := hg.och_min, ocw_min := hg.ocw_min,
          och_min := hg.och_min, ocp_nonneg := hg.ocp_nonneg, orp_nonneg := hg.orp_nonneg,
          cp_nonneg := hg.ocp_nonneg, rp_nonneg := hg.orp_nonneg,
          w_eq := rfl, h_eq := rfl, ow_pos := hg.ow_pos, oh_pos := hg.oh_pos,
          sr_w := hg.sr_w, sr_h := hg.sr_h, pad_sync := fun _ => ⟨rfl, rfl⟩ }
    · exact
        { cw_min := hg.cw_min, ch_min := hg.ch_min, ocw_min := hg.ocw_min,
          och_min := hg.och_min, ocp_nonneg := hg.ocp_nonneg, orp_nonneg := hg.orp_nonneg,
          cp_nonneg := hg.cp_nonneg, rp_nonneg := hg.rp_nonneg,
          w_eq := hg.w_eq, h_eq := hg.h_eq, ow_pos := hg.ow_pos, oh_pos := hg.oh_pos,
          sr_w := hg.sr_w, sr_h := hg.sr_h, pad_sync := hg.pad_sync }

theorem geomInv_set_resize_protocol (g : Grid) (protocol : Nat) (sz : Size) (rx ry : Bool)
    (hg : GeomInv g)
    (hrx : rx = true → g.scroll_region.1 ≤ (sz.width : Int))
    (hry : ry = true → g.scroll_region.2 ≤ (sz.height : Int)) :
    GeomInv (g.set_resize_protocol protocol sz rx ry).1 := by
  have hg1 : GeomInv { g with resize_protocol := some protocol, geometry := g.orig_geometry } :=
    { cw_min := hg.ocw_min, ch_min := hg.och_min, ocw_min := hg.ocw_min, och_min := hg.och_min,
      ocp_nonneg := hg.ocp_nonneg, orp_nonneg := hg.orp_nonneg,
      cp_nonneg := hg.ocp_nonneg, rp_nonneg := hg.orp_nonneg,
      w_eq := rfl, h_eq := rfl, ow_pos := hg.ow_pos, oh_pos := hg.oh_pos,
      sr_w := hg.sr_w, sr_h := hg.sr_h, pad_sync := fun _ => ⟨rfl, rfl⟩ }
  have hg2 : GeomInv { g with resize_protocol := some protocol, geometry := g.orig_geometry, resize_data := some sz } :=
    { cw_min := hg.ocw_min, ch_min := hg.och_min, ocw_min := hg.ocw_min, och_min := hg.och_min,
      ocp_nonneg := hg.ocp_nonneg, orp_nonneg := hg.orp_nonneg,
      cp_nonneg := hg.ocp_nonneg, rp_nonneg := hg.orp_nonneg,
      w_eq := rfl, h_eq := rfl, ow_pos := hg.ow_pos, oh_pos := hg.oh_pos,
      sr_w := hg.sr_w, sr_h := hg.sr_h, pad_sync := fun _ => ⟨rfl, rfl⟩ }
  unfold Grid.set_resize_protocol
  dsimp only
  split
  · exact geomInv_set_protocol_none _ hg1
  · exact geomInv_resize_after_callback _ rx ry hg2 (fun hp => hrx hp) (fun hp => hry hp)

theorem set_geometry_geometry_eq (g : Grid) (w h cw ch : Option Nat) (cp rp : Option Int) :
    (g.set_geometry w h cw ch cp rp).1.geometry = (g.set_geometry w h cw ch cp rp).2 := by
  simp only [Grid.set_geometry]
  split <;> split <;> rfl

theorem set_geometry_orig_eq (g : Grid) (w h cw ch : Option Nat) (cp rp : Option Int) :
    (g.set_geometry w h cw ch cp rp).1.orig_geometry = (g.set_geometry w h cw ch cp rp).2 := by
  simp only [Grid.set_geometry]
  split <;> split <;> rfl

theorem set_geometry_proto_eq (g : Grid) (w h cw ch : Option Nat) (cp rp : Option Int) :
    (g.set_geometry w h cw ch cp rp).1.resize_protocol = g.resize_protocol := by
  simp only [Grid.set_geometry]
  split <;> split <;> rfl

theorem set_geometry_scroll_w (g : Grid) (w h cw ch : Option Nat) (cp rp : Option Int) :
    (g.set_geometry w h cw ch cp rp).1.scroll_region.1
      = ((g.set_geometry w h cw ch cp rp).2.width : Int) *
        (((g.set_geometry w h cw ch cp rp).2.cell_width : Int) +
          (g.set_geometry w h cw ch cp rp).2.column_padding) := by
  simp only [Grid.set_geometry]
  split <;> split <;> rfl

theorem set_geometry_scroll_h (g : Grid) (w h cw ch : Option Nat) (cp rp : Option Int) :
    (g.set_geometry w h cw ch cp rp).1.scroll_region.2
      = ((g.set_geometry w h cw ch cp rp).2.height : Int) *
        (((g.set_geometry w h cw ch cp rp).2.cell_height : Int) +
          (g.set_geometry w h cw ch cp rp).2.row_padding) := by
  simp only [Grid.set_geometry]
  split <;> split <;> rfl

theorem set_geometry_cw_min (g : Grid) (w h cw ch : Option Nat) (cp rp : Option Int) :
    Grid.MIN_CELL_WIDTH ≤ (g.set_geometry w h cw ch cp rp).2.cell_width := by
  simp only [Grid.set_geometry]
  exact clamp_le _ _

theorem set_geometry_ch_min (g : Grid) (w h cw ch : Option Nat) (cp rp : Option Int) :
    Grid.MIN_CELL_HEIGHT ≤ (g.set_geometry w h cw ch cp rp).2.cell_height := by
  simp only [Grid.set_geometry]
  exact clamp_le _ _

theorem set_geometry_cp_nonneg (g : Grid) (w h cw ch : Option Nat) (cp rp : Option Int)
    (hg : 0 ≤ g.geometry.column_padding) (hcp : ∀ v, cp = some v → 0 ≤ v) :
    0 ≤ (g.set_geometry w h cw ch cp rp).2.column_padding := by
  simp only [Grid.set_geometry]
  cases cp with
  | none => exact hg
  | some v => exact hcp v rfl

theorem set_geometry_rp_nonneg (g : Grid) (w h cw ch : Option Nat) (cp rp : Option Int)
    (hg : 0 ≤ g.geometry.row_padding) (hrp : ∀ v, rp = some v → 0 ≤ v) :
    0 ≤ (g.set_geometry w h cw ch cp rp).2.row_padding := by
  simp only [Grid.set_geometry]
  cases rp with
  | none => exact hg
  | some v => exact hrp v rfl

theorem set_geometry_w_pos (g : Grid) (w h cw ch : Option Nat) (cp rp : Option Int)
    (hg : 1 ≤ g.geometry.width) : 1 ≤ (g.set_geometry w h cw ch cp rp).2.width := by
  simp only [Grid.set_geometry]
  split
  · exact hg
  · omega

theorem set_geometry_h_pos (g : Grid) (w h cw ch : Option Nat) (cp rp : Option Int)
    (hg : 1 ≤ g.geometry.height) : 1 ≤ (g.set_geometry w h cw ch cp rp).2.height := by
  simp only [Grid.set_geometry]
  split
  · exact hg
  · omega

theorem geomInv_set_geometry (g : Grid) (w h cw ch : Option Nat) (cp rp : Option Int)
    (hg : GeomInv g) (hcp : ∀ v, cp = some v → 0 ≤ v) (hrp : ∀ v, rp = some v → 0 ≤ v) :
    GeomInv (g.set_geometry w h cw ch cp rp).1 := by
  have e1 := set_geometry_geometry_eq g w h cw ch cp rp
  have e2 := set_geometry_orig_eq g w h cw ch cp rp
  have e3 := set_geometry_proto_eq g w h cw ch cp rp
  have e4 := set_geometry_scroll_w g w h cw ch cp rp
  have e5 := set_geometry_scroll_h g w h cw ch cp rp
  have hwpos : 1 ≤ g.geometry.width := by
    have := hg.w_eq
    have := hg.ow_pos
    omega
  have hhpos : 1 ≤ g.geometry.height := by
    have := hg.h_eq
    have := hg.oh_pos
    omega
  refine
    { cw_min := ?_, ch_min := ?_, ocw_min := ?_, och_min := ?_,
      ocp_nonneg := ?_, orp_nonneg := ?_, cp_nonneg := ?_, rp_nonneg := ?_,
      w_eq := ?_, h_eq := ?_, ow_pos := ?_, oh_pos := ?_, sr_w := ?_, sr_h := ?_,
      pad_sync := ?_ }
  · rw [e1]
    exact set_geometry_cw_min g w h cw ch cp rp
  · rw [e1]
    exact set_geometry_ch_min g w h cw ch cp rp
  · rw [e2]
    exact set_geometry_cw_min g w h cw ch cp rp
  · rw [e2]
    exact set_geometry_ch_min g w h cw ch cp rp
  · rw [e2]
    exact set_geometry_cp_nonneg g w h cw ch cp rp hg.cp_nonneg hcp
  · rw [e2]
    exact set_geometry_rp_nonneg g w h cw ch cp rp hg.rp_nonneg hrp
  · rw [e1]
    exact set_geometry_cp_nonneg g w h cw ch cp rp hg.cp_nonneg hcp
  · rw [e1]
    exact set_geometry_rp_nonneg g w h cw ch cp rp hg.rp_nonneg hrp
  · rw [e1, e2]
  · rw [e1, e2]
  · rw [e2]
    exact set_geometry_w_pos g w h cw ch cp rp hwpos
  · rw [e2]
    exact set_geometry_h_pos g w h cw ch cp rp hhpos
  · rw [e4, e2]
  · rw [e5, e2]
  · intro hp
    rw [e1, e2]
    exact ⟨rfl, rfl⟩

theorem geomInv_init (w h cw ch : Nat) (cp rp : Int) (protocol : Nat) (sz : Size) (rx ry : Bool)
    (hw : 1 ≤ w) (hh : 1 ≤ h)
    (hcw : Grid.MIN_CELL_WIDTH ≤ cw) (hch : Grid.MIN_CELL_HEIGHT ≤ ch)
    (hcp : 0 ≤ cp) (hrp : 0 ≤ rp)
    (hrx : rx = true → (w : Int) * ((cw : Int) + cp) ≤ (sz.width : Int))
    (hry : ry = true → (h : Int) * ((ch : Int) + rp) ≤ (sz.height : Int)) :
    GeomInv (Grid.init w h cw ch cp rp protocol sz rx ry).1 := by
  unfold Grid.init
  exact geomInv_set_resize_protocol _ protocol sz rx ry
    { cw_min := hcw, ch_min := hch, ocw_min := hcw, och_min := hch,
      ocp_nonneg := hcp, orp_nonneg := hrp, cp_nonneg := hcp, rp_nonneg := hrp,
      w_eq := rfl, h_eq := rfl, ow_pos := hw, oh_pos := hh,
      sr_w := rfl, sr_h := rfl, pad_sync := fun _ => ⟨rfl, rfl⟩ }
    hrx hry

/-- Grid states reachable, from a constructor call whose arguments
respect the minima, by any sequence of `set_geometry` calls (with
nonnegative padding arguments, when given — `set_geometry` itself does
not reject negative ones, see `c6_min_cell_width_violations`),
`set_resize_protocol` calls and resize-protocol callbacks.  A resize
callback (or the one simulated inside `set_resize_protocol`) fires for
an axis only under its documented trigger: `_should_resize_x/y` report
a saturated scrollbar, i.e. the viewport size cached in `resize_data`
at least covers the scroll region in that axis. -/
inductive ReachableGeom : Grid → Prop where
  | init (w h cw ch : Nat) (cp rp : Int) (protocol : Nat) (sz : Size) (rx ry : Bool)
      (hw : 1 ≤ w) (hh : 1 ≤ h)
      (hcw : Grid.MIN_CELL_WIDTH ≤ cw) (hch : Grid.MIN_CELL_HEIGHT ≤ ch)
      (hcp : 0 ≤ cp) (hrp : 0 ≤ rp)
      (hrx : rx = true → (w : Int) * ((cw : Int) + cp) ≤ (sz.width : Int))
      (hry : ry = true → (h : Int) * ((ch : Int) + rp) ≤ (sz.height : Int)) :
      ReachableGeom (Grid.init w h cw ch cp rp protocol sz rx ry).1
  | set_geometry (g : Grid) (w h cw ch : Option Nat) (cp rp : Option Int)
      (hg : ReachableGeom g)
      (hcp : ∀ v, cp = some v → 0 ≤ v) (hrp : ∀ v, rp = some v → 0 ≤ v) :
      ReachableGeom (g.set_geometry w h cw ch cp rp).1
  | set_resize_protocol (g : Grid) (protocol : Nat) (sz : Size) (rx ry : Bool)
      (hg : ReachableGeom g)
      (hrx : rx = true → g.scroll_region.1 ≤ (sz.width : Int))
      (hry : ry = true → g.scroll_region.2 ≤ (sz.height : Int)) :
      ReachableGeom (g.set_resize_protocol protocol sz rx ry).1
  | resize_callback (g : Grid) (sz : Size) (rx ry : Bool)
      (hg : ReachableGeom g)
      (hrx : rx = true → g.scroll_region.1 ≤ (sz.width : Int))
      (hry : ry = true → g.scroll_region.2 ≤ (sz.height : Int)) :
      ReachableGeom (Grid.resize_after_callback { g with resize_data := some sz } rx ry).1

theorem geomInv_reachable (g : Grid) (h : ReachableGeom g) : GeomInv g := by
  induction h with
  | init w h cw ch cp rp protocol sz rx ry hw hh hcw hch hcp hrp hrx hry =>
    exact geomInv_init w h cw ch cp rp protocol sz rx ry hw hh hcw hch hcp hrp hrx hry
  | set_geometry g w h cw ch cp rp hg hcp hrp ih =>
    exact geomInv_set_geometry g w h cw ch cp rp ih hcp hrp
  | set_resize_protocol g protocol sz rx ry hg hrx hry ih =>
    exact geomInv_set_resize_protocol g protocol sz rx ry ih hrx hry
  | resize_callback g sz rx ry hg hrx hry ih =>
    refine geomInv_resize_after_callback _ rx ry ?_ (fun hp => hrx hp) (fun hp => hry hp)
    exact
      { cw_min := ih.cw_min, ch_min := ih.ch_min, ocw_min := ih.ocw_min, och_min := ih.och_min,
        ocp_nonneg := ih.ocp_nonneg, orp_nonneg := ih.orp_nonneg,
        cp_nonneg := ih.cp_nonneg, rp_nonneg := ih.rp_nonneg,
        w_eq := ih.w_eq, h_eq := ih.h_eq, ow_pos := ih.ow_pos, oh_pos := ih.oh_pos,
        sr_w := ih.sr_w, sr_h := ih.sr_h, pad_sync := ih.pad_sync }

/-- C6, amended.  Neither the constructor nor `set_geometry` rejects
minimum-violating inputs everywhere (see
`c6_min_cell_width_violations`); but provided the constructor's
`cell_width`/`cell_height` arguments respect the minima, its paddings
are nonnegative and its extents positive, and every `set_geometry`
call passes nonnegative paddings when it sets them, every grid state
reachable by any sequence of `set_geometry` calls,
`set_resize_protocol` calls and resize-protocol callbacks — the
callbacks firing only under their documented scrollbar-saturation
trigger — satisfies `cell_width ≥ MIN_CELL_WIDTH` and
`cell_height ≥ MIN_CELL_HEIGHT`. -/
theorem c6_min_cell_sizes_invariant (g : Grid) (h : ReachableGeom g) :
    Grid.MIN_CELL_WIDTH ≤ g.geometry.cell_width ∧
    Grid.MIN_CELL_HEIGHT ≤ g.geometry.cell_height :=
  ⟨(geomInv_reachable g h).cw_min, (geomInv_reachable g h).ch_min⟩

/-- A concrete reachable grid exercising the C6 invariant: constructed
3×3 with 50-pixel cells and the `EXPAND_CELLS` protocol, then resized
through one triggered callback with a 300×300 viewport and one
`set_geometry` call. -/
def gridC6Witness : Grid :=
  ((Grid.init 3 3 50 50 0 0 Grid.RESIZE_PROTO_EXPAND_CELLS ⟨200, 200⟩ false false).1.set_geometry
    (some 4) none (some 30) none (some 2) none).1

theorem c6_min_cell_sizes_invariant_witness :
    Grid.MIN_CELL_WIDTH ≤ gridC6Witness.geometry.cell_width ∧
    Grid.MIN_CELL_HEIGHT ≤ gridC6Witness.geometry.cell_height :=
  c6_min_cell_sizes_invariant gridC6Witness
    (ReachableGeom.set_geometry _ (some 4) none (some 30) none (some 2) none
      (ReachableGeom.init 3 3 50 50 0 0 Grid.RESIZE_PROTO_EXPAND_CELLS ⟨200, 200⟩ false false
        (by decide) (by decide) (by decide) (by decide) (by decide) (by decide)
        (fun hp => absurd hp (by decide)) (fun hp => absurd hp (by decide)))
      (fun v hv => by cases hv; decide) (fun v hv => by cases hv))

theorem c7_add_padding_degenerate_witness :
    gridC7.resize_after_callback true false = (gridC7.set_protocol_none, true) ∧
    gridC7.resize_after_callback false true = (gridC7.set_protocol_none, true) ∧
    (gridC7.set_protocol_none).resize_protocol = some Grid.RESIZE_PROTO_NONE ∧
    (gridC7.set_protocol_none).geometry = gridC7.orig_geometry ∧
    (gridC7.set_protocol_none).state = gridC7.state :=
  ⟨(c7_add_padding_degenerate gridC7 true false (by decide) (Or.inl ⟨rfl, by decide⟩)).1,
   (c7_add_padding_degenerate gridC7 false true (by decide) (Or.inr ⟨rfl, by decide⟩)).1,
   (c7_add_padding_degenerate gridC7 true false (by decide) (Or.inl ⟨rfl, by decide⟩)).2.1,
   (c7_add_padding_degenerate gridC7 true false (by decide) (Or.inl ⟨rfl, by decide⟩)).2.2.1,
   (c7_add_padding_degenerate gridC7 true false (by decide) (Or.inl ⟨rfl, by decide⟩)).2.2.2.1⟩

theorem c8_register_overwrites_witness :
    Grid.entryCell (gridC1a.register_dockable dockA) dockA.id = some ⟨0, 1⟩ ∧
    (gridC1a.register_dockable dockA).state.occ 0 0 = true ∧
    Grid.entryCell (gridC8full.register_dockable dockA) dockA.id = some ⟨1, 0⟩ ∧
    (gridC8full.register_dockable dockA).state.occ 0 0 = true := by
  have h1 := c8_register_overwrites gridC1a dockA (dockA, ⟨⟨0, 0⟩, ⟨0, 0, 50, 50⟩⟩)
    (by decide) (by decide) (by decide)
  have h2 := c8_register_overwrites gridC8full dockA (dockA, ⟨⟨0, 0⟩, ⟨0, 0, 50, 50⟩⟩)
    (by decide) (by decide) (by decide)
  refine ⟨?_, ?_, ?_, ?_⟩
  · have he := h1.1
    rw [show (gridC1a.find_next_empty_cell_group dockA.col_span dockA.row_span ⟨0, 0⟩).2
        = (⟨0, 1⟩ : Cell) from by decide] at he
    exact he
  · exact h1.2.2.1 ⟨0, 1⟩ (by decide) 0 0 (by decide)
  · have he := h2.1
    rw [show (gridC8full.find_next_empty_cell_group dockA.col_span dockA.row_span ⟨0, 0⟩).2
        = (⟨1, 0⟩ : Cell) from by decide] at he
    exact he
  · exact h2.2.2.2 (by decide) 0 0 (by decide)

end SpookyConsole
